import Mathlib

/-!
Verification development for the DevSecOps video-automation workflow
(`backend/src/routes/workflow.py` and the four pipeline scripts
`content_planner.py`, `script_generator.py`, `video_producer.py`,
`youtube_publisher.py`).

The Python code is shallowly embedded: external effects (subprocess runs,
GitHub / OpenAI / YouTube calls, ffmpeg invocations, sqlite errors, wall
clock) are supplied as explicit environment arguments, and the control flow
around them is translated directly from the source.  SQLite tables are
lists of row structures; JSON-serialised list columns are modelled by their
deserialised values (serialisation is a bijection on the values the code
stores and reads back).
-/

namespace DevSecOps

/-! ## Subprocess layer (`workflow.py`)

`subprocess.run(...)` with `capture_output=True` is modelled by a
`ProcResult` supplied by an environment `Stage → ProcResult`; the four
stage scripts are the `Stage` enumeration. -/

/-- Result of a completed `subprocess.run` call: `returncode`, captured
`stdout` and captured `stderr`. -/
structure ProcResult where
  returncode : Int
  stdout : String
  stderr : String
deriving Repr, DecidableEq

/-- The four pipeline stage scripts invoked by the workflow routes. -/
inductive Stage where
  | contentPlanner
  | scriptGenerator
  | videoProducer
  | youtubePublisher
deriving Repr, DecidableEq

/-- Script file run for each stage (`workflow.py` subprocess argument). -/
def scriptFile : Stage → String
  | .contentPlanner => "content_planner.py"
  | .scriptGenerator => "script_generator.py"
  | .videoProducer => "video_producer.py"
  | .youtubePublisher => "youtube_publisher.py"

/-- `step` label recorded in `run_full_workflow`'s results list. -/
def stepName : Stage → String
  | .contentPlanner => "Content Planning"
  | .scriptGenerator => "Script Generation"
  | .videoProducer => "Video Production"
  | .youtubePublisher => "YouTube Publishing"

/-- The stage order hard-coded in `run_full_workflow`. -/
def fullOrder : List Stage :=
  [.contentPlanner, .scriptGenerator, .videoProducer, .youtubePublisher]

/-- One entry of the `results` list built by `run_full_workflow`. -/
structure StepEntry where
  step : String
  success : Bool
  output : String
  error : Option String
deriving Repr, DecidableEq

/-- `results.append({...})` body in `run_full_workflow`. -/
def mkStepEntry (s : Stage) (r : ProcResult) : StepEntry :=
  { step := stepName s
    success := r.returncode == 0
    output := r.stdout
    error := if r.returncode != 0 then some r.stderr else none }

/-- The JSON response of `POST /workflow/run-full` (HTTP status, `success`
flag, `results` list, optional `message`). -/
structure FullResponse where
  httpStatus : Nat
  success : Bool
  results : List StepEntry
  message : Option String
deriving Repr, DecidableEq

/-- `run_full_workflow` (workflow.py lines 315-388): runs the four stage
scripts in sequence, appending a result entry after each, returning early
with HTTP 500 as soon as a stage exits nonzero.  The second component is
the trace of subprocesses actually started, in invocation order; each
subprocess result is consumed (entry recorded, returncode tested) before
the next one is started, mirroring the blocking `subprocess.run` calls. -/
def runFullWorkflow (env : Stage → ProcResult) : FullResponse × List Stage :=
  let r1 := env .contentPlanner
  let acc1 := [mkStepEntry .contentPlanner r1]
  if r1.returncode ≠ 0 then
    (⟨500, false, acc1, none⟩, [.contentPlanner])
  else
    let r2 := env .scriptGenerator
    let acc2 := acc1 ++ [mkStepEntry .scriptGenerator r2]
    if r2.returncode ≠ 0 then
      (⟨500, false, acc2, none⟩, [.contentPlanner, .scriptGenerator])
    else
      let r3 := env .videoProducer
      let acc3 := acc2 ++ [mkStepEntry .videoProducer r3]
      if r3.returncode ≠ 0 then
        (⟨500, false, acc3, none⟩,
          [.contentPlanner, .scriptGenerator, .videoProducer])
      else
        let r4 := env .youtubePublisher
        let acc4 := acc3 ++ [mkStepEntry .youtubePublisher r4]
        let overall := acc4.all (·.success)
        (⟨200, overall, acc4,
          some (if overall then "Full workflow completed"
                else "Workflow completed with errors")⟩,
          fullOrder)

/-- `message` field map of the per-stage POST endpoints
(`topics/generate`, `scripts/generate`, `projects/produce`,
`publishing/publish`). -/
def stageMessage : Stage → String
  | .contentPlanner => "Content topics generated successfully"
  | .scriptGenerator => "Scripts generated successfully"
  | .videoProducer => "Videos produced successfully"
  | .youtubePublisher => "Videos published successfully"

/-- JSON response of a per-stage POST endpoint. -/
structure StageResponse where
  httpStatus : Nat
  success : Bool
  message : Option String
  output : String
  error : Option String
deriving Repr, DecidableEq

/-- The shared body of the four per-stage POST endpoints
(`generate_topics`, `generate_scripts`, `produce_videos`,
`publish_videos`): run the stage script once; on exit code 0 answer
success with the captured stdout, otherwise answer HTTP 500 with the
captured stderr as `error` (stdout is still included as `output`).
The second component is the trace of subprocesses started. -/
def runStageEndpoint (s : Stage) (r : ProcResult) : StageResponse × List Stage :=
  if r.returncode == 0 then
    (⟨200, true, some (stageMessage s), r.stdout, none⟩, [s])
  else
    (⟨500, false, none, r.stdout, some r.stderr⟩, [s])

/-! ## Data model: per-stage SQLite stores

Each stage script owns one SQLite database with one table.  Tables are
modelled as lists of row structures; `AUTOINCREMENT` ids are threaded as a
`nextId` counter.  `created_at` timestamp columns are kept only where the
code reads them back (`scripts`, `projects` — used in `ORDER BY`); sqlite
write errors are modelled by a boolean `ok` argument on each save
function.  Float columns (`trending_score REAL`, durations) are modelled
as `Rat`. -/

/-- Database path and table name of one stage's store. -/
structure StageStore where
  dbPath : String
  tableName : String
deriving Repr, DecidableEq

/-- Content-planning store (`ContentDatabase`, content_planner.py). -/
def contentStore : StageStore := ⟨"data/content_topics.db", "topics"⟩

/-- Script-generation store (`ScriptDatabase`, script_generator.py). -/
def scriptsStore : StageStore := ⟨"data/video_scripts.db", "scripts"⟩

/-- Video-production store (`VideoProjectDatabase`, video_producer.py). -/
def projectsStore : StageStore := ⟨"data/video_projects.db", "projects"⟩

/-- Publishing store (`PublishingDatabase`, youtube_publisher.py). -/
def publishingStore : StageStore := ⟨"data/publishing_records.db", "publishing_records"⟩

/-- The `ContentTopic` dataclass of content_planner.py. -/
structure ContentTopic where
  title : String
  description : String
  difficulty_level : String
  estimated_duration : Int
  github_repos : List String
  trending_score : Rat
  keywords : List String
  target_audience : String
deriving Repr, DecidableEq

/-- A row of the `topics` table (content_topics.db). -/
structure TopicRow where
  id : Nat
  title : String
  description : String
  difficulty_level : String
  estimated_duration : Int
  github_repos : List String
  trending_score : Rat
  keywords : List String
  target_audience : String
  status : String
deriving Repr, DecidableEq

/-- Row built by `ContentDatabase.save_topic`'s INSERT; the `status`
column takes its schema default `'planned'`. -/
def topicRow (i : Nat) (t : ContentTopic) : TopicRow :=
  { id := i
    title := t.title
    description := t.description
    difficulty_level := t.difficulty_level
    estimated_duration := t.estimated_duration
    github_repos := t.github_repos
    trending_score := t.trending_score
    keywords := t.keywords
    target_audience := t.target_audience
    status := "planned" }

/-- `ContentDatabase.save_topic` (content_planner.py lines 203-225):
`INSERT OR REPLACE` keyed on the `UNIQUE` `title` column — any existing
row with the same title is deleted and the new row is inserted with a
fresh autoincrement id.  `ok = false` models a caught `sqlite3.Error`
(table unchanged, `False` returned). -/
def saveTopic (ok : Bool) (tbl : List TopicRow) (nid : Nat) (t : ContentTopic) :
    (List TopicRow × Nat) × Bool :=
  if ok then
    ((tbl.filter (fun r => r.title != t.title) ++ [topicRow nid t], nid + 1), true)
  else
    ((tbl, nid), false)

/-- One section of a script's `main_content` list
(`_generate_main_content`, script_generator.py). -/
structure MainSection where
  section_title : String
  content : String
  duration_minutes : Rat
deriving Repr, DecidableEq

/-- One entry of a script's `demonstration_steps` list
(`_generate_demonstration_steps`, script_generator.py). -/
structure DemoStep where
  step_number : Nat
  title : String
  description : String
  commands : List String
  expected_output : String
  troubleshooting : String
  duration_seconds : Nat
deriving Repr, DecidableEq

/-- The `VideoScript` dataclass of script_generator.py. -/
structure VideoScript where
  topic_id : Nat
  title : String
  introduction : String
  main_content : List MainSection
  demonstration_steps : List DemoStep
  conclusion : String
  call_to_action : String
  estimated_duration : Int
  required_tools : List String
  prerequisites : List String
  learning_objectives : List String
deriving Repr, DecidableEq

/-- A row of the `scripts` table (video_scripts.db); list-valued columns
are stored as JSON text and modelled by their deserialised values. -/
structure ScriptRow where
  id : Nat
  topic_id : Nat
  title : String
  introduction : String
  main_content : List MainSection
  demonstration_steps : List DemoStep
  conclusion : String
  call_to_action : String
  estimated_duration : Int
  required_tools : List String
  prerequisites : List String
  learning_objectives : List String
  status : String
  created_at : Nat
deriving Repr, DecidableEq

/-- Row built by `ScriptDatabase.save_script`'s INSERT; `status` takes its
schema default `'draft'` and `created_at` the current timestamp. -/
def scriptRow (i now : Nat) (s : VideoScript) : ScriptRow :=
  { id := i
    topic_id := s.topic_id
    title := s.title
    introduction := s.introduction
    main_content := s.main_content
    demonstration_steps := s.demonstration_steps
    conclusion := s.conclusion
    call_to_action := s.call_to_action
    estimated_duration := s.estimated_duration
    required_tools := s.required_tools
    prerequisites := s.prerequisites
    learning_objectives := s.learning_objectives
    status := "draft"
    created_at := now }

/-- `ScriptDatabase.save_script` (script_generator.py lines 320-346):
plain INSERT appending one row; returns `lastrowid`, or `None` on a
caught `sqlite3.Error` (modelled by `ok = false`). -/
def saveScript (ok : Bool) (tbl : List ScriptRow) (nid now : Nat) (s : VideoScript) :
    (List ScriptRow × Nat) × Option Nat :=
  if ok then ((tbl ++ [scriptRow nid now s], nid + 1), some nid)
  else ((tbl, nid), none)

/-- The `metadata` JSON column of a video project
(built in `VideoProductionManager.produce_video`). -/
structure ProjMeta where
  duration : Rat
  created_at : String
  required_tools : List String
  learning_objectives : List String
deriving Repr, DecidableEq

/-- The `VideoProject` dataclass of video_producer.py.  `assets` live only
in memory (they are not a column of the `projects` table). -/
structure VideoAsset where
  asset_type : String
  file_path : String
  duration : Rat
  description : String
deriving Repr, DecidableEq

/-- The `VideoProject` dataclass of video_producer.py. -/
structure VideoProjectData where
  script_id : Nat
  title : String
  assets : List VideoAsset
  final_video_path : String
  thumbnail_path : Option String
  metadata : ProjMeta
deriving Repr, DecidableEq

/-- A row of the `projects` table (video_projects.db). -/
structure ProjectRow where
  id : Nat
  script_id : Nat
  title : String
  final_video_path : String
  thumbnail_path : Option String
  metadata : ProjMeta
  status : String
  created_at : Nat
deriving Repr, DecidableEq

/-- Row built by `VideoProjectDatabase.save_project`'s INSERT; `status`
takes its schema default `'produced'`. -/
def projectRow (i now : Nat) (p : VideoProjectData) : ProjectRow :=
  { id := i
    script_id := p.script_id
    title := p.title
    final_video_path := p.final_video_path
    thumbnail_path := p.thumbnail_path
    metadata := p.metadata
    status := "produced"
    created_at := now }

/-- `VideoProjectDatabase.save_project` (video_producer.py lines 391-409):
plain INSERT appending one row; returns `lastrowid` or `None` on error. -/
def saveProject (ok : Bool) (tbl : List ProjectRow) (nid now : Nat) (p : VideoProjectData) :
    (List ProjectRow × Nat) × Option Nat :=
  if ok then ((tbl ++ [projectRow nid now p], nid + 1), some nid)
  else ((tbl, nid), none)

/-- The publish record dict built in `YouTubePublisher.publish_video`. -/
structure PublishRecord where
  project_id : Nat
  video_id : String
  title : String
  published_at : String
  status : String
deriving Repr, DecidableEq

/-- A row of the `publishing_records` table (publishing_records.db). -/
structure PublishRow where
  id : Nat
  project_id : Nat
  video_id : String
  title : String
  published_at : String
  status : String
deriving Repr, DecidableEq

/-- Row built by `PublishingDatabase.save_publish_record`'s INSERT. -/
def publishRow (i : Nat) (rec : PublishRecord) : PublishRow :=
  { id := i
    project_id := rec.project_id
    video_id := rec.video_id
    title := rec.title
    published_at := rec.published_at
    status := rec.status }

/-- `PublishingDatabase.save_publish_record` (youtube_publisher.py lines
446-464): plain INSERT appending one row; returns `lastrowid` or `None`
on a caught `sqlite3.Error`. -/
def savePublishRecord (ok : Bool) (tbl : List PublishRow) (nid : Nat) (rec : PublishRecord) :
    (List PublishRow × Nat) × Option Nat :=
  if ok then ((tbl ++ [publishRow nid rec], nid + 1), some nid)
  else ((tbl, nid), none)

/-! ## `GET /workflow/workflow/status` (workflow.py lines 263-313)

For each stage: the per-status counts come from a
`SELECT status, COUNT(*) ... GROUP BY status` and the total from
`SELECT COUNT(*)`; a stage whose database file does not exist (`none`)
keeps the zero-initialised dict.  The per-status dict is modelled as the
counting function `status ↦ number of rows with that status` (statuses
absent from the table count zero, matching the zero-initialised keys).
For publishing the code sets `published` equal to `total`. -/

/-- Per-stage block of the workflow status response. -/
structure StageStatus where
  total : Nat
  byStatus : String → Nat

/-- Status block of one stage table: zeros when the database file is
missing, otherwise total row count and per-status group counts. -/
def tableStatus {α : Type} (stat : α → String) : Option (List α) → StageStatus
  | none => ⟨0, fun _ => 0⟩
  | some tbl => ⟨tbl.length, fun s => (tbl.filter (fun r => stat r == s)).length⟩

/-- The `status` object returned by `get_workflow_status`. -/
structure WorkflowStatus where
  topics : StageStatus
  scripts : StageStatus
  projects : StageStatus
  publishingTotal : Nat
  publishingPublished : Nat

/-- `get_workflow_status` (workflow.py lines 263-313).  Each argument is
`none` when that stage's database file does not exist.  The publishing
block has no group-by: `published` is assigned the total count. -/
def getWorkflowStatus (t : Option (List TopicRow)) (s : Option (List ScriptRow))
    (p : Option (List ProjectRow)) (pub : Option (List PublishRow)) : WorkflowStatus :=
  { topics := tableStatus TopicRow.status t
    scripts := tableStatus ScriptRow.status s
    projects := tableStatus ProjectRow.status p
    publishingTotal := match pub with | none => 0 | some l => l.length
    publishingPublished := match pub with | none => 0 | some l => l.length }

/-! ## `MetadataGenerator` (youtube_publisher.py lines 189-298)

Python strings are handled as `List Char` (`len`, slicing, `in`,
`.lower()` translate to list operations). -/

/-- `needle == hay[:len(needle)]` — helper for the Python `in` operator. -/
def startsWithChars : List Char → List Char → Bool
  | [], _ => true
  | _ :: _, [] => false
  | a :: as, b :: bs => a == b && startsWithChars as bs

/-- The Python substring test `needle in hay`. -/
def containsChars (needle : List Char) : List Char → Bool
  | [] => needle.isEmpty
  | c :: rest => startsWithChars needle (c :: rest) || containsChars needle rest

/-- `MetadataGenerator._optimize_title` (youtube_publisher.py lines
214-224): titles longer than 90 characters are cut to 87 characters plus
`"..."`; then, when neither `DevSecOps` nor (case-insensitively)
`devsecops` occurs, the prefix `"DevSecOps: "` is prepended. -/
def optimizeTitle (original : List Char) : List Char :=
  let t := if original.length > 90 then original.take 87 ++ "...".toList else original
  if !containsChars "DevSecOps".toList t &&
     !containsChars "devsecops".toList (t.map Char.toLower) then
    "DevSecOps: ".toList ++ t
  else t

/-- `_optimize_title` on `String` values (used by `generate_metadata`). -/
def optimizeTitleStr (s : String) : String := String.mk (optimizeTitle s.toList)

/-- `MetadataGenerator.self.devsecops_tags` (youtube_publisher.py lines
193-198) — note this base list already has 16 entries. -/
def devsecopsTags : List String :=
  ["DevSecOps", "DevOps", "Security", "CI/CD", "Automation",
   "Container Security", "Kubernetes", "Docker", "Infrastructure as Code",
   "Security Scanning", "Vulnerability Management", "Compliance",
   "Secure Coding", "Penetration Testing", "Monitoring", "Tutorial"]

/-- `MetadataGenerator._generate_tags` (youtube_publisher.py lines
279-298), taking the deserialised inputs it reads: the project metadata's
`required_tools` list and the script's `keywords` list
(`json.loads(script_data.get('keywords', '[]'))`).  Tools are appended
when not already present; keywords additionally require fewer than 15
accumulated tags; the final list is cut to `tags[:15]`. -/
def generateTags (required_tools script_keywords : List String) : List String :=
  let tags := devsecopsTags
  let tags := required_tools.foldl
    (fun acc tool => if acc.contains tool then acc else acc ++ [tool]) tags
  let tags := script_keywords.foldl
    (fun acc kw => if !acc.contains kw && acc.length < 15 then acc ++ [kw] else acc) tags
  tags.take 15

/-- The metadata dict built by `MetadataGenerator.generate_metadata`.
The generated description text is not modelled (no claim inspects it). -/
structure VideoMetadata where
  title : String
  tags : List String
  privacy_status : String
  thumbnail_path : Option String
deriving Repr, DecidableEq

/-- `MetadataGenerator.generate_metadata` (youtube_publisher.py lines
200-212).  The `scripts` table has no `keywords` column, so
`script_data.get('keywords', '[]')` always yields the default `'[]'` and
the keyword list passed to `_generate_tags` is empty. -/
def generateMetadata (proj : ProjectRow) (_sc : ScriptRow) : VideoMetadata :=
  { title := optimizeTitleStr proj.title
    tags := generateTags proj.metadata.required_tools []
    privacy_status := "public"
    thumbnail_path := proj.thumbnail_path }

/-! ## `PublishingScheduler` (youtube_publisher.py lines 300-335)

Datetimes are modelled as an absolute day number plus microseconds since
midnight; weekday 0 is Monday.  The configured `optimal_times` strings
`'HH:MM'` are modelled as `(hour, minute)` pairs. -/

/-- A point in time: absolute day count and microseconds since
midnight. -/
structure PyDateTime where
  day : Nat
  tod : Nat
deriving Repr, DecidableEq

/-- `self.optimal_times` keyed by weekday (0 = Monday); the `['14:00']`
default of `.get` is unreachable since every weekday is present. -/
def optimalTimes : Nat → List (Nat × Nat)
  | 0 => [(14, 0), (20, 0)]
  | 1 => [(14, 0), (20, 0)]
  | 2 => [(14, 0), (20, 0)]
  | 3 => [(14, 0), (20, 0)]
  | 4 => [(14, 0), (18, 0)]
  | 5 => [(10, 0), (16, 0)]
  | 6 => [(10, 0), (16, 0)]
  | _ => [(14, 0)]

/-- Microseconds since midnight of `now.replace(hour=h, minute=m,
second=0, microsecond=0)`. -/
def toMicros (hm : Nat × Nat) : Nat := (hm.1 * 60 + hm.2) * 60 * 1000000

/-- `PublishingScheduler.get_next_publish_time` (youtube_publisher.py
lines 314-335): the first configured time of today strictly after `now`,
else the first configured time of the following day. -/
def getNextPublishTime (now : PyDateTime) : PyDateTime :=
  let todayTimes := optimalTimes (now.day % 7)
  match todayTimes.find? (fun hm => decide (now.tod < toMicros hm)) with
  | some hm => ⟨now.day, toMicros hm⟩
  | none => ⟨now.day + 1, toMicros ((optimalTimes ((now.day + 1) % 7)).headD (14, 0))⟩

/-- Strict order on modelled datetimes. -/
def dtLt (a b : PyDateTime) : Prop :=
  a.day < b.day ∨ (a.day = b.day ∧ a.tod < b.tod)

/-! ## The stage main workflows

Each `main()` reads a snapshot of its input table, iterates over the
selected rows, and writes through the save functions and `UPDATE ... SET
status` statements.  The whole database state is a `Pipeline`; LLM output,
ffmpeg/espeak outcomes, upload results, sqlite errors and timestamps are
supplied by per-stage environments (keyed by the processed row's id). -/

/-- The four stage tables plus the autoincrement counters. -/
structure Pipeline where
  topics : List TopicRow
  scripts : List ScriptRow
  projects : List ProjectRow
  publishing : List PublishRow
  nextTopicId : Nat
  nextScriptId : Nat
  nextProjectId : Nat
  nextPublishId : Nat

/-- Insertion step of `sortBy`. -/
def insertBy {α : Type} (le : α → α → Bool) (a : α) : List α → List α
  | [] => [a]
  | b :: l => if le a b then a :: b :: l else b :: insertBy le a l

/-- Insertion sort modelling a SQL `ORDER BY`. -/
def sortBy {α : Type} (le : α → α → Bool) : List α → List α
  | [] => []
  | a :: l => insertBy le a (sortBy le l)

/-- Environment of `content_planner.main`: the topic list returned by
`generate_topics_from_trends` (failed LLM calls already dropped — a
`None` topic is never appended) and the sqlite outcome of each save. -/
structure PlannerEnv where
  generated : List ContentTopic
  saveOk : ContentTopic → Bool

/-- `content_planner.main` (content_planner.py lines 239-264), restricted
to its effect on the `topics` table: save every generated topic. -/
def contentPlannerMain (env : PlannerEnv) (topics : List TopicRow) (nid : Nat) :
    List TopicRow × Nat :=
  env.generated.foldl (fun acc t => (saveTopic (env.saveOk t) acc.1 acc.2 t).1)
    (topics, nid)

/-- The LLM-generated parts of a script (everything
`ScriptStructureGenerator.generate_script` does not copy from the
topic row). -/
structure ScriptContent where
  introduction : String
  main_content : List MainSection
  demonstration_steps : List DemoStep
  conclusion : String
  call_to_action : String
  required_tools : List String
  prerequisites : List String
  learning_objectives : List String

/-- `ScriptStructureGenerator.generate_script` (script_generator.py lines
141-169): `topic_id`, `title` and `estimated_duration` come from the
topic row, the rest from research/LLM output (all generator helpers catch
their exceptions and fall back to defaults, so generation always yields a
`VideoScript`). -/
def generateScript (t : TopicRow) (c : ScriptContent) : VideoScript :=
  { topic_id := t.id
    title := t.title
    introduction := c.introduction
    main_content := c.main_content
    demonstration_steps := c.demonstration_steps
    conclusion := c.conclusion
    call_to_action := c.call_to_action
    estimated_duration := t.estimated_duration
    required_tools := c.required_tools
    prerequisites := c.prerequisites
    learning_objectives := c.learning_objectives }

/-- Environment of `script_generator.main`. -/
structure ScriptGenEnv where
  content : TopicRow → ScriptContent
  saveOk : Nat → Bool
  now : Nat

/-- The topic snapshot query of `script_generator.main`:
`SELECT * FROM topics WHERE status = 'planned' ORDER BY trending_score
DESC LIMIT 3`. -/
def scriptGenSelect (topics : List TopicRow) : List TopicRow :=
  (sortBy (fun a b => decide (b.trending_score ≤ a.trending_score))
    (topics.filter (fun r => r.status == "planned"))).take 3

/-- `UPDATE topics SET status = 'scripted' WHERE id = ?` row effect. -/
def setScripted (r : TopicRow) : TopicRow := { r with status := "scripted" }

/-- Loop body of `script_generator.main` for one selected topic:
research + generate, save the script, and on save success mark the topic
`scripted`. -/
def scriptGenStep (env : ScriptGenEnv) (st : Pipeline) (t : TopicRow) : Pipeline :=
  let s := generateScript t (env.content t)
  match saveScript (env.saveOk t.id) st.scripts st.nextScriptId env.now s with
  | ((tbl, nid), some _) =>
      { st with
          scripts := tbl
          nextScriptId := nid
          topics := st.topics.map (fun r => if r.id == t.id then setScripted r else r) }
  | ((tbl, nid), none) => { st with scripts := tbl, nextScriptId := nid }

/-- `script_generator.main` (script_generator.py lines 348-403). -/
def scriptGeneratorMain (env : ScriptGenEnv) (st : Pipeline) : Pipeline :=
  (scriptGenSelect st.topics).foldl (scriptGenStep env) st

/-- Environment of `video_producer.main`: per-script outcomes of the
ffmpeg asset generations, composition, thumbnail and sqlite save
(an asset oracle `false` covers both a ffmpeg failure and a missing
output file filtered by `compose_video`), the generated file paths and
the timestamps. -/
structure ProduceEnv where
  introOk : Nat → Bool
  demoOk : Nat → Bool
  outroOk : Nat → Bool
  composeOk : Nat → Bool
  thumbOk : Nat → Bool
  saveOk : Nat → Bool
  introPath : Nat → String
  demoPath : Nat → String
  outroPath : Nat → String
  finalPath : Nat → String
  thumbPath : Nat → String
  nowIso : String
  now : Nat

/-- `VideoProductionManager.produce_video` (video_producer.py lines
278-352): look the script up, build the asset list (intro, demo when
`demonstration_steps` is nonempty, outro), compose (fails when no asset
file exists or ffmpeg fails), generate the thumbnail, save the project.
Returns the project on success together with the updated `projects`
table and counter. -/
def produceVideo (env : ProduceEnv) (scripts : List ScriptRow)
    (projects : List ProjectRow) (nid sid : Nat) :
    Option VideoProjectData × List ProjectRow × Nat :=
  match scripts.find? (fun r => r.id == sid) with
  | none => (none, projects, nid)
  | some sc =>
    let assets : List VideoAsset :=
      (if env.introOk sid then [⟨"intro", env.introPath sid, 5, "Introduction"⟩] else []) ++
      (if !sc.demonstration_steps.isEmpty && env.demoOk sid then
        [⟨"demo", env.demoPath sid, (sc.demonstration_steps.length * 30 : Rat),
          "Demonstration"⟩] else []) ++
      (if env.outroOk sid then [⟨"outro", env.outroPath sid, 5, "Call to action"⟩] else [])
    if assets.isEmpty || !env.composeOk sid then (none, projects, nid)
    else
      let proj : VideoProjectData :=
        { script_id := sid
          title := sc.title
          assets := assets
          final_video_path := env.finalPath sid
          thumbnail_path := if env.thumbOk sid then some (env.thumbPath sid) else none
          metadata :=
            { duration := (assets.map (fun a => a.duration)).sum
              created_at := env.nowIso
              required_tools := sc.required_tools
              learning_objectives := sc.learning_objectives } }
      match saveProject (env.saveOk sid) projects nid env.now proj with
      | ((tbl, nid2), some _) => (some proj, tbl, nid2)
      | ((tbl, nid2), none) => (none, tbl, nid2)

/-- The script snapshot query of `video_producer.main`:
`SELECT id, title FROM scripts WHERE status = 'draft' ORDER BY created_at
DESC LIMIT 2`. -/
def producerSelect (scripts : List ScriptRow) : List ScriptRow :=
  (sortBy (fun a b => decide (b.created_at ≤ a.created_at))
    (scripts.filter (fun r => r.status == "draft"))).take 2

/-- `UPDATE scripts SET status = 'produced' WHERE id = ?` row effect. -/
def setProduced (r : ScriptRow) : ScriptRow := { r with status := "produced" }

/-- Loop body of `video_producer.main` for one selected script: produce
the video and, when production returned a project, mark the script
`produced`. -/
def producerStep (env : ProduceEnv) (st : Pipeline) (sc : ScriptRow) : Pipeline :=
  match produceVideo env st.scripts st.projects st.nextProjectId sc.id with
  | (some _, tbl, nid) =>
      { st with
          projects := tbl
          nextProjectId := nid
          scripts := st.scripts.map (fun r => if r.id == sc.id then setProduced r else r) }
  | (none, tbl, nid) => { st with projects := tbl, nextProjectId := nid }

/-- `video_producer.main` (video_producer.py lines 411-462). -/
def videoProducerMain (env : ProduceEnv) (st : Pipeline) : Pipeline :=
  (producerSelect st.scripts).foldl (producerStep env) st

/-- Environment of `youtube_publisher.main`: per-project upload result
(`none` = authentication, missing file or API failure), sqlite outcome of
the record save, and the `published_at` timestamp. -/
structure PublishEnv where
  upload : Nat → Option String
  saveOk : Nat → Bool
  nowIso : String

/-- `YouTubePublisher.publish_video` (youtube_publisher.py lines
346-392): look up the project and its script, generate metadata, upload;
on upload success save a publish record (its sqlite result is ignored)
and return the video id.  Returns the updated `publishing_records` table
and counter. -/
def publishVideo (env : PublishEnv) (st : Pipeline) (pid : Nat) :
    Option String × List PublishRow × Nat :=
  match st.projects.find? (fun r => r.id == pid) with
  | none => (none, st.publishing, st.nextPublishId)
  | some proj =>
    match st.scripts.find? (fun r => r.id == proj.script_id) with
    | none => (none, st.publishing, st.nextPublishId)
    | some sc =>
      let md := generateMetadata proj sc
      match env.upload pid with
      | none => (none, st.publishing, st.nextPublishId)
      | some vid =>
        let record : PublishRecord :=
          { project_id := pid, video_id := vid, title := md.title,
            published_at := env.nowIso, status := "published" }
        match savePublishRecord (env.saveOk pid) st.publishing st.nextPublishId record with
        | ((tbl, nid), _) => (some vid, tbl, nid)

/-- The project snapshot query of `youtube_publisher.main`:
`SELECT id, title FROM projects WHERE status = 'produced' ORDER BY
created_at ASC LIMIT 1`. -/
def publisherSelect (projects : List ProjectRow) : List ProjectRow :=
  (sortBy (fun a b => decide (a.created_at ≤ b.created_at))
    (projects.filter (fun r => r.status == "produced"))).take 1

/-- `UPDATE projects SET status = 'published' WHERE id = ?` row effect. -/
def setPublished (r : ProjectRow) : ProjectRow := { r with status := "published" }

/-- Loop body of `youtube_publisher.main` for one selected project:
publish and, when a video id came back, mark the project `published`. -/
def publisherStep (env : PublishEnv) (st : Pipeline) (p : ProjectRow) : Pipeline :=
  match publishVideo env st p.id with
  | (some _, tbl, nid) =>
      { st with
          publishing := tbl
          nextPublishId := nid
          projects := st.projects.map (fun r => if r.id == p.id then setPublished r else r) }
  | (none, tbl, nid) => { st with publishing := tbl, nextPublishId := nid }

/-- `youtube_publisher.main` (youtube_publisher.py lines 466-509). -/
def youtubePublisherMain (env : PublishEnv) (st : Pipeline) : Pipeline :=
  (publisherSelect st.projects).foldl (publisherStep env) st

/-- Rows `o` (before) and `c` (after) of one table are related when the
row is untouched or has been advanced from status `src` by the update
`adv`. -/
def advanceRel {α : Type} (stat : α → String) (adv : α → α) (src : String)
    (o c : α) : Prop :=
  c = o ∨ (stat o = src ∧ c = adv o)

/-- The table effect of `UPDATE ... SET status = ... WHERE id = x`:
apply `adv` to every row whose id is `x`. -/
def updAll {α : Type} (idOf : α → Nat) (adv : α → α) (x : Nat) (l : List α) : List α :=
  l.map (fun c => if idOf c == x then adv c else c)

/-! ## Concrete fixtures (used by witness theorems) -/

/-- A planned topic row. -/
def topicFix : TopicRow :=
  ⟨1, "T", "", "beginner", 8, [], 0, [], "", "planned"⟩

/-- A draft script row. -/
def scriptFix : ScriptRow :=
  ⟨1, 1, "T", "", [], [], "", "", 8, [], [], [], "draft", 0⟩

/-- Empty project metadata. -/
def projMetaFix : ProjMeta := ⟨0, "", [], []⟩

/-- A produced project row referencing `scriptFix`. -/
def projectFix : ProjectRow :=
  ⟨1, 1, "T", "out.mp4", none, projMetaFix, "produced", 0⟩

/-- Pipeline holding one planned topic. -/
def pipeFixA : Pipeline := ⟨[topicFix], [], [], [], 2, 1, 1, 1⟩

/-- Pipeline holding one draft script. -/
def pipeFixB : Pipeline := ⟨[], [scriptFix], [], [], 1, 2, 1, 1⟩

/-- Pipeline holding one produced project and its script. -/
def pipeFixC : Pipeline := ⟨[], [scriptFix], [projectFix], [], 1, 2, 2, 1⟩

/-- Trivial LLM output fixture. -/
def scriptContentFix : ScriptContent := ⟨"", [], [], "", "", [], [], []⟩

/-- Script-generation environment whose saves all succeed. -/
def sgEnvFix : ScriptGenEnv := ⟨fun _ => scriptContentFix, fun _ => true, 0⟩

/-- Production environment whose tools and saves all succeed. -/
def prEnvFix : ProduceEnv :=
  ⟨fun _ => true, fun _ => true, fun _ => true, fun _ => true, fun _ => true,
   fun _ => true, fun _ => "i.mp4", fun _ => "d.mp4", fun _ => "o.mp4",
   fun _ => "f.mp4", fun _ => "t.png", "", 0⟩

/-- Publishing environment whose uploads and saves all succeed. -/
def pubEnvFix : PublishEnv := ⟨fun _ => some "vid123", fun _ => true, ""⟩

/-- Subprocess environment where every stage exits 0. -/
def procEnvOk : Stage → ProcResult := fun _ => ⟨0, "out", ""⟩

/-- Subprocess environment where script generation (stage 2) fails. -/
def procEnvFail2 : Stage → ProcResult := fun s =>
  match s with
  | .scriptGenerator => ⟨1, "partial", "boom"⟩
  | _ => ⟨0, "out", ""⟩

/-! ## Helper lemmas -/

theorem mem_insertBy {α : Type} (le : α → α → Bool) (a x : α) (l : List α) :
    x ∈ insertBy le a l ↔ x = a ∨ x ∈ l := by
  induction l with
  | nil => simp [insertBy]
  | cons b t ih =>
    by_cases h : le a b
    · simp [insertBy, h]
    · simp [insertBy, h, ih]
      tauto

theorem mem_sortBy {α : Type} (le : α → α → Bool) (x : α) (l : List α) :
    x ∈ sortBy le l ↔ x ∈ l := by
  induction l with
  | nil => simp [sortBy]
  | cons b t ih => simp [sortBy, mem_insertBy, ih]

theorem mem_scriptGenSelect {topics : List TopicRow} {t : TopicRow}
    (h : t ∈ scriptGenSelect topics) : t ∈ topics ∧ t.status = "planned" := by
  have h1 := List.take_subset _ _ h
  rw [mem_sortBy, List.mem_filter] at h1
  exact ⟨h1.1, by simpa using h1.2⟩

theorem mem_producerSelect {scripts : List ScriptRow} {s : ScriptRow}
    (h : s ∈ producerSelect scripts) : s ∈ scripts ∧ s.status = "draft" := by
  have h1 := List.take_subset _ _ h
  rw [mem_sortBy, List.mem_filter] at h1
  exact ⟨h1.1, by simpa using h1.2⟩

theorem mem_publisherSelect {projects : List ProjectRow} {p : ProjectRow}
    (h : p ∈ publisherSelect projects) : p ∈ projects ∧ p.status = "produced" := by
  have h1 := List.take_subset _ _ h
  rw [mem_sortBy, List.mem_filter] at h1
  exact ⟨h1.1, by simpa using h1.2⟩

theorem forall2_advance_refl {α : Type} (stat : α → String) (adv : α → α) (src : String)
    (l : List α) : List.Forall₂ (advanceRel stat adv src) l l :=
  List.forall₂_same.mpr (fun _ _ => Or.inl rfl)

theorem forall2_advance_update {α : Type} {stat : α → String} {adv : α → α} {src : String}
    (idOf : α → Nat) (_hAdvId : ∀ a, idOf (adv a) = idOf a)
    (hAdvIdem : ∀ a, adv (adv a) = adv a)
    {l₀ cur : List α} (h : List.Forall₂ (advanceRel stat adv src) l₀ cur) :
    ∀ tid, (∀ o ∈ l₀, idOf o = tid → stat o = src) →
    List.Forall₂ (advanceRel stat adv src) l₀ (updAll idOf adv tid cur) := by
  induction h with
  | nil => intro tid hsrc; simp [updAll]
  | @cons o c l₁ l₂ hoc htail ih =>
    intro tid hsrc
    simp only [updAll, List.map_cons]
    refine List.Forall₂.cons ?_ (ih tid fun o' ho' _ => hsrc o' (List.mem_cons_of_mem _ ho') ‹_›)
    by_cases hid : idOf c = tid
    · rw [if_pos (by simp [hid])]
      rcases hoc with rfl | ⟨hst, rfl⟩
      · exact Or.inr ⟨hsrc c (List.mem_cons_self _ _) hid, rfl⟩
      · exact Or.inr ⟨hst, hAdvIdem o⟩
    · rw [if_neg (by simp [hid])]
      exact hoc

theorem forall2_exists_id {α : Type} {stat : α → String} {adv : α → α} {src : String}
    (idOf : α → Nat)
    {l₀ cur : List α} (h : List.Forall₂ (advanceRel stat adv src) l₀ cur)
    (hAdvId : ∀ a, idOf (adv a) = idOf a) :
    ∀ o ∈ l₀, ∃ c ∈ cur, idOf c = idOf o := by
  induction h with
  | nil => simp
  | @cons a b l₁ l₂ hab htail ih =>
    intro o ho
    rcases List.mem_cons.mp ho with rfl | ho'
    · refine ⟨b, List.mem_cons_self _ _, ?_⟩
      rcases hab with rfl | ⟨_, rfl⟩
      · rfl
      · exact hAdvId o
    · obtain ⟨c, hc, hcid⟩ := ih o ho'
      exact ⟨c, List.mem_cons_of_mem _ hc, hcid⟩

theorem forall2_exists_left {α : Type} {R : α → α → Prop}
    {l₀ cur : List α} (h : List.Forall₂ R l₀ cur) :
    ∀ c ∈ cur, ∃ o ∈ l₀, R o c := by
  induction h with
  | nil => simp
  | @cons a b l₁ l₂ hab htail ih =>
    intro c hc
    rcases List.mem_cons.mp hc with rfl | hc'
    · exact ⟨a, List.mem_cons_self _ _, hab⟩
    · obtain ⟨o, ho, hr⟩ := ih c hc'
      exact ⟨o, List.mem_cons_of_mem _ ho, hr⟩

theorem exists_row_updAll {α : Type} (idOf : α → Nat) (adv : α → α) {Q : α → Prop}
    (hQ : ∀ a, Q a → Q (adv a)) (hAdvId : ∀ a, idOf (adv a) = idOf a)
    {l : List α} {tid : Nat} (h : ∃ r ∈ l, idOf r = tid ∧ Q r) (x : Nat) :
    ∃ r ∈ updAll idOf adv x l, idOf r = tid ∧ Q r := by
  obtain ⟨r, hr, hid, hq⟩ := h
  refine ⟨if idOf r == x then adv r else r, List.mem_map_of_mem _ hr, ?_⟩
  by_cases hc : idOf r = x
  · rw [if_pos (by simp [hc])]
    exact ⟨(hAdvId r).trans hid, hQ r hq⟩
  · rw [if_neg (by simp [hc])]
    exact ⟨hid, hq⟩

/-! ## Step-shape lemmas for the stage main loops -/

theorem scriptGenStep_topics (env : ScriptGenEnv) (st : Pipeline) (t : TopicRow) :
    (scriptGenStep env st t).topics = st.topics ∨
    (scriptGenStep env st t).topics = updAll TopicRow.id setScripted t.id st.topics := by
  cases h : env.saveOk t.id <;> simp [scriptGenStep, saveScript, h, updAll]

theorem scriptGenStep_topics_pos (env : ScriptGenEnv) (st : Pipeline) (t : TopicRow)
    (h : env.saveOk t.id = true) :
    (scriptGenStep env st t).topics = updAll TopicRow.id setScripted t.id st.topics := by
  simp [scriptGenStep, saveScript, h, updAll]

theorem producerStep_scripts (env : ProduceEnv) (st : Pipeline) (sc : ScriptRow) :
    (producerStep env st sc).scripts = st.scripts ∨
    (producerStep env st sc).scripts = updAll ScriptRow.id setProduced sc.id st.scripts := by
  unfold producerStep
  rcases h : produceVideo env st.scripts st.projects st.nextProjectId sc.id with ⟨o, tbl, nid⟩
  cases o <;> simp [updAll]

theorem produceVideo_isSome (env : ProduceEnv) (scripts : List ScriptRow)
    (projects : List ProjectRow) (nid sid : Nat) (c : ScriptRow)
    (hfind : scripts.find? (fun r => r.id == sid) = some c)
    (hio : env.introOk sid = true) (hco : env.composeOk sid = true)
    (hsv : env.saveOk sid = true) :
    (produceVideo env scripts projects nid sid).1.isSome := by
  unfold produceVideo
  rw [hfind]
  simp [hio, hco, hsv, saveProject]

theorem producerStep_scripts_pos (env : ProduceEnv) (st : Pipeline) (sc : ScriptRow)
    (h : (produceVideo env st.scripts st.projects st.nextProjectId sc.id).1.isSome) :
    (producerStep env st sc).scripts = updAll ScriptRow.id setProduced sc.id st.scripts := by
  unfold producerStep
  rw [show produceVideo env st.scripts st.projects st.nextProjectId sc.id =
      ((produceVideo env st.scripts st.projects st.nextProjectId sc.id).1,
       (produceVideo env st.scripts st.projects st.nextProjectId sc.id).2.1,
       (produceVideo env st.scripts st.projects st.nextProjectId sc.id).2.2) from rfl]
  obtain ⟨pd, hpd⟩ := Option.isSome_iff_exists.mp h
  rw [hpd]
  simp [updAll]

theorem publisherStep_projects (env : PublishEnv) (st : Pipeline) (p : ProjectRow) :
    (publisherStep env st p).projects = st.projects ∨
    (publisherStep env st p).projects = updAll ProjectRow.id setPublished p.id st.projects := by
  unfold publisherStep
  rcases h : publishVideo env st p.id with ⟨o, tbl, nid⟩
  cases o <;> simp [updAll]

theorem publisherStep_scripts (env : PublishEnv) (st : Pipeline) (p : ProjectRow) :
    (publisherStep env st p).scripts = st.scripts := by
  unfold publisherStep
  rcases h : publishVideo env st p.id with ⟨o, tbl, nid⟩
  cases o <;> simp

theorem publishVideo_isSome (env : PublishEnv) (st : Pipeline) (pid : Nat) (c : ProjectRow)
    (hfind : st.projects.find? (fun r => r.id == pid) = some c)
    (hsc : ∃ s ∈ st.scripts, s.id = c.script_id)
    (hup : (env.upload pid).isSome) :
    (publishVideo env st pid).1.isSome := by
  unfold publishVideo
  rw [hfind]
  have hfs : (st.scripts.find? (fun r => r.id == c.script_id)).isSome := by
    rw [List.find?_isSome]
    obtain ⟨s, hs, hsid⟩ := hsc
    exact ⟨s, hs, by simp [hsid]⟩
  obtain ⟨sc, hsc2⟩ := Option.isSome_iff_exists.mp hfs
  obtain ⟨vid, hvid⟩ := Option.isSome_iff_exists.mp hup
  cases h : env.saveOk pid <;> simp [hsc2, hvid, savePublishRecord, h]

theorem publisherStep_projects_pos (env : PublishEnv) (st : Pipeline) (p : ProjectRow)
    (h : (publishVideo env st p.id).1.isSome) :
    (publisherStep env st p).projects = updAll ProjectRow.id setPublished p.id st.projects := by
  unfold publisherStep
  rw [show publishVideo env st p.id =
      ((publishVideo env st p.id).1, (publishVideo env st p.id).2.1,
       (publishVideo env st p.id).2.2) from rfl]
  obtain ⟨vid, hvid⟩ := Option.isSome_iff_exists.mp h
  rw [hvid]
  simp [updAll]

/-! ## Claim theorems: metadata and scheduler -/

/-- C8 (code evaluated at the failing input): `_optimize_title` applied to
a 90-character title that does not mention DevSecOps returns a
101-character title — the `"DevSecOps: "` prefix is added after the
under-100 truncation, exceeding the 100-character bound the claim (and
the function's own comment) states. -/
theorem optimize_title_exceeds_100_at_input :
    (optimizeTitle (List.replicate 90 'q')).length = 101 := by decide

/-- C9: `_generate_tags` always returns at most 15 tags, for every
`required_tools` list and every script keyword list — the trailing
`tags[:15]` truncation caps the result. -/
theorem generate_tags_at_most_15 (required_tools script_keywords : List String) :
    (generateTags required_tools script_keywords).length ≤ 15 := by
  unfold generateTags
  simp [List.length_take]

/-- C10: `get_next_publish_time` returns a datetime strictly later than
`now`; it is the first configured optimal time of the current day that is
strictly after `now` when one exists, and otherwise (no configured time
remains today) the first configured optimal time of the following day. -/
theorem next_publish_time_strictly_later (now : PyDateTime) :
    dtLt now (getNextPublishTime now) ∧
    (match (optimalTimes (now.day % 7)).find? (fun hm => decide (now.tod < toMicros hm)) with
     | some hm => getNextPublishTime now = ⟨now.day, toMicros hm⟩
     | none =>
        ((∀ hm ∈ optimalTimes (now.day % 7), toMicros hm ≤ now.tod) ∧
          getNextPublishTime now =
            ⟨now.day + 1, toMicros ((optimalTimes ((now.day + 1) % 7)).headD (14, 0))⟩)) := by
  cases h : (optimalTimes (now.day % 7)).find? (fun hm => decide (now.tod < toMicros hm)) with
  | some hm =>
    have hlt : now.tod < toMicros hm := by simpa using List.find?_some h
    have hg : getNextPublishTime now = ⟨now.day, toMicros hm⟩ := by
      simp [getNextPublishTime, h]
    constructor
    · rw [hg]
      exact Or.inr ⟨rfl, hlt⟩
    · simp only [h]
      exact hg
  | none =>
    constructor
    · exact Or.inl (by simp [getNextPublishTime, h])
    · simp only [h]
      refine ⟨?_, by simp [getNextPublishTime, h]⟩
      intro hm hmem
      have := List.find?_eq_none.mp h hm hmem
      simpa using this

/-- Witness for C10: on Monday midnight the next publish time is the same
day at 14:00, strictly later — by `next_publish_time_strictly_later`. -/
theorem next_publish_time_strictly_later_witness :
    dtLt ⟨0, 0⟩ (getNextPublishTime ⟨0, 0⟩) ∧
    getNextPublishTime ⟨0, 0⟩ = ⟨0, toMicros (14, 0)⟩ := by
  have h := next_publish_time_strictly_later ⟨0, 0⟩
  exact ⟨h.1, by decide⟩

/-! ## Claim theorems: HTTP layer -/

/-- C7: for every per-stage POST endpoint, the response has success true
and carries the subprocess stdout exactly when the script exits 0 (the
success branch also answers HTTP 200 with the stage message); otherwise
the endpoint answers HTTP 500 with success false and the subprocess
stderr as `error` (stdout is still carried as `output`). -/
theorem stage_endpoint_response (s : Stage) (r : ProcResult) :
    (((runStageEndpoint s r).1.success = true ∧
        (runStageEndpoint s r).1.output = r.stdout) ↔ r.returncode = 0) ∧
    (r.returncode = 0 →
      (runStageEndpoint s r).1.httpStatus = 200 ∧
      (runStageEndpoint s r).1.message = some (stageMessage s)) ∧
    (r.returncode ≠ 0 →
      (runStageEndpoint s r).1.httpStatus = 500 ∧
      (runStageEndpoint s r).1.success = false ∧
      (runStageEndpoint s r).1.error = some r.stderr ∧
      (runStageEndpoint s r).1.output = r.stdout) := by
  by_cases h : r.returncode = 0 <;> simp [runStageEndpoint, h]

/-- Witness for C7: the content-planner endpoint at a failing subprocess
result answers 500 / success false / stderr error, by
`stage_endpoint_response`. -/
theorem stage_endpoint_response_witness :
    (runStageEndpoint Stage.contentPlanner ⟨1, "o", "e"⟩).1.httpStatus = 500 ∧
    (runStageEndpoint Stage.contentPlanner ⟨1, "o", "e"⟩).1.success = false ∧
    (runStageEndpoint Stage.contentPlanner ⟨1, "o", "e"⟩).1.error = some "e" ∧
    (runStageEndpoint Stage.contentPlanner ⟨1, "o", "e"⟩).1.output = "o" :=
  (stage_endpoint_response Stage.contentPlanner ⟨1, "o", "e"⟩).2.2 (by decide)

/-- C1: `run_full_workflow` starts the stage subprocesses in exactly the
order content planner, script generator, video producer, youtube
publisher — the trace of started subprocesses is always an initial
segment of that order (each `subprocess.run` blocks, so a stage's result
is recorded before the next stage starts), and when every stage exits 0
all four are invoked. -/
theorem runFullWorkflow_stage_order (env : Stage → ProcResult) :
    (∃ k, (runFullWorkflow env).2 = fullOrder.take k) ∧
    ((∀ s, (env s).returncode = 0) → (runFullWorkflow env).2 = fullOrder) := by
  constructor
  · by_cases h1 : (env Stage.contentPlanner).returncode ≠ 0
    · exact ⟨1, by simp [runFullWorkflow, h1, fullOrder]⟩
    by_cases h2 : (env Stage.scriptGenerator).returncode ≠ 0
    · exact ⟨2, by simp [runFullWorkflow, h1, h2, fullOrder]⟩
    by_cases h3 : (env Stage.videoProducer).returncode ≠ 0
    · exact ⟨3, by simp [runFullWorkflow, h1, h2, h3, fullOrder]⟩
    · exact ⟨4, by simp [runFullWorkflow, h1, h2, h3, fullOrder]⟩
  · intro h
    simp [runFullWorkflow, h Stage.contentPlanner, h Stage.scriptGenerator,
      h Stage.videoProducer]

/-- Witness for C1: with every stage exiting 0 the trace is the full
four-stage order, by `runFullWorkflow_stage_order`. -/
theorem runFullWorkflow_stage_order_witness :
    (runFullWorkflow procEnvOk).2 = fullOrder :=
  (runFullWorkflow_stage_order procEnvOk).2 (fun _ => rfl)

/-- C3: within one request, each stage script is started at most once:
the `run-full` trace counts every stage at most once, and each per-stage
POST endpoint starts exactly its own script, once — a failing stage is
never re-invoked (no retry). -/
theorem stage_scripts_no_retry :
    (∀ (env : Stage → ProcResult) (s : Stage),
      ((runFullWorkflow env).2.count s) ≤ 1) ∧
    (∀ (s : Stage) (r : ProcResult), (runStageEndpoint s r).2 = [s]) := by
  constructor
  · intro env s
    by_cases h1 : (env Stage.contentPlanner).returncode ≠ 0
    · have : (runFullWorkflow env).2 = [Stage.contentPlanner] := by
        simp [runFullWorkflow, h1]
      rw [this]; cases s <;> decide
    by_cases h2 : (env Stage.scriptGenerator).returncode ≠ 0
    · have : (runFullWorkflow env).2 = [Stage.contentPlanner, Stage.scriptGenerator] := by
        simp [runFullWorkflow, h1, h2]
      rw [this]; cases s <;> decide
    by_cases h3 : (env Stage.videoProducer).returncode ≠ 0
    · have : (runFullWorkflow env).2 =
          [Stage.contentPlanner, Stage.scriptGenerator, Stage.videoProducer] := by
        simp [runFullWorkflow, h1, h2, h3]
      rw [this]; cases s <;> decide
    · have : (runFullWorkflow env).2 = fullOrder := by
        simp [runFullWorkflow, h1, h2, h3]
      rw [this]; cases s <;> decide
  · intro s r
    by_cases h : r.returncode = 0 <;> simp [runStageEndpoint, h]

/-- C2: early exit of `run_full_workflow`.  If stage k (k = 1, 2, 3)
exits nonzero, the response is HTTP 500 with success false, the results
list holds exactly the k attempted stages with the failing entry carrying
the stage's stderr as error, and no later stage is started; if all four
stages exit 0 the response is HTTP 200 with success true and four result
entries. -/
theorem runFullWorkflow_early_exit (env : Stage → ProcResult) :
    ((env Stage.contentPlanner).returncode ≠ 0 →
      (runFullWorkflow env).1.httpStatus = 500 ∧
      (runFullWorkflow env).1.success = false ∧
      (runFullWorkflow env).1.results =
        [mkStepEntry Stage.contentPlanner (env Stage.contentPlanner)] ∧
      (mkStepEntry Stage.contentPlanner (env Stage.contentPlanner)).error =
        some (env Stage.contentPlanner).stderr ∧
      (runFullWorkflow env).2 = [Stage.contentPlanner]) ∧
    ((env Stage.contentPlanner).returncode = 0 →
      (env Stage.scriptGenerator).returncode ≠ 0 →
      (runFullWorkflow env).1.httpStatus = 500 ∧
      (runFullWorkflow env).1.success = false ∧
      (runFullWorkflow env).1.results =
        [mkStepEntry Stage.contentPlanner (env Stage.contentPlanner),
         mkStepEntry Stage.scriptGenerator (env Stage.scriptGenerator)] ∧
      (mkStepEntry Stage.scriptGenerator (env Stage.scriptGenerator)).error =
        some (env Stage.scriptGenerator).stderr ∧
      (runFullWorkflow env).2 = [Stage.contentPlanner, Stage.scriptGenerator]) ∧
    ((env Stage.contentPlanner).returncode = 0 →
      (env Stage.scriptGenerator).returncode = 0 →
      (env Stage.videoProducer).returncode ≠ 0 →
      (runFullWorkflow env).1.httpStatus = 500 ∧
      (runFullWorkflow env).1.success = false ∧
      (runFullWorkflow env).1.results =
        [mkStepEntry Stage.contentPlanner (env Stage.contentPlanner),
         mkStepEntry Stage.scriptGenerator (env Stage.scriptGenerator),
         mkStepEntry Stage.videoProducer (env Stage.videoProducer)] ∧
      (mkStepEntry Stage.videoProducer (env Stage.videoProducer)).error =
        some (env Stage.videoProducer).stderr ∧
      (runFullWorkflow env).2 =
        [Stage.contentPlanner, Stage.scriptGenerator, Stage.videoProducer]) ∧
    ((∀ s, (env s).returncode = 0) →
      (runFullWorkflow env).1.httpStatus = 200 ∧
      (runFullWorkflow env).1.success = true ∧
      (runFullWorkflow env).1.results =
        [mkStepEntry Stage.contentPlanner (env Stage.contentPlanner),
         mkStepEntry Stage.scriptGenerator (env Stage.scriptGenerator),
         mkStepEntry Stage.videoProducer (env Stage.videoProducer),
         mkStepEntry Stage.youtubePublisher (env Stage.youtubePublisher)] ∧
      (runFullWorkflow env).1.results.length = 4) := by
  refine ⟨?_, ?_, ?_, ?_⟩
  · intro h1
    refine ⟨?_, ?_, ?_, ?_, ?_⟩ <;> simp [runFullWorkflow, mkStepEntry, h1]
  · intro h1 h2
    refine ⟨?_, ?_, ?_, ?_, ?_⟩ <;> simp [runFullWorkflow, mkStepEntry, h1, h2]
  · intro h1 h2 h3
    refine ⟨?_, ?_, ?_, ?_, ?_⟩ <;> simp [runFullWorkflow, mkStepEntry, h1, h2, h3]
  · intro h
    refine ⟨?_, ?_, ?_, ?_⟩ <;>
      simp [runFullWorkflow, mkStepEntry, h Stage.contentPlanner,
        h Stage.scriptGenerator, h Stage.videoProducer, h Stage.youtubePublisher]

/-- Witness for C2: with stage 2 failing, `run_full_workflow` answers 500
/ success false, the results list has exactly the two attempted entries
with the failing one carrying stderr "boom", and stages 3 and 4 are never
started — by `runFullWorkflow_early_exit`. -/
theorem runFullWorkflow_early_exit_witness :
    (runFullWorkflow procEnvFail2).1.httpStatus = 500 ∧
    (runFullWorkflow procEnvFail2).1.success = false ∧
    (runFullWorkflow procEnvFail2).1.results =
      [mkStepEntry Stage.contentPlanner (procEnvFail2 Stage.contentPlanner),
       mkStepEntry Stage.scriptGenerator (procEnvFail2 Stage.scriptGenerator)] ∧
    (mkStepEntry Stage.scriptGenerator (procEnvFail2 Stage.scriptGenerator)).error =
      some (procEnvFail2 Stage.scriptGenerator).stderr ∧
    (runFullWorkflow procEnvFail2).2 = [Stage.contentPlanner, Stage.scriptGenerator] :=
  (runFullWorkflow_early_exit procEnvFail2).2.1 (by decide) (by decide)

/-! ## Claim theorems: persistence and status -/

/-- C5: `get_workflow_status` returns, per stage, the total row count and
per-status counts of that stage's table; a stage whose database file does
not exist (`none`) reports all counts zero, and the publishing block's
`published` count always equals its `total` count. -/
theorem workflow_status_counts (t : Option (List TopicRow)) (s : Option (List ScriptRow))
    (p : Option (List ProjectRow)) (pub : Option (List PublishRow)) :
    (t = none → (getWorkflowStatus t s p pub).topics.total = 0 ∧
      ∀ q, (getWorkflowStatus t s p pub).topics.byStatus q = 0) ∧
    (s = none → (getWorkflowStatus t s p pub).scripts.total = 0 ∧
      ∀ q, (getWorkflowStatus t s p pub).scripts.byStatus q = 0) ∧
    (p = none → (getWorkflowStatus t s p pub).projects.total = 0 ∧
      ∀ q, (getWorkflowStatus t s p pub).projects.byStatus q = 0) ∧
    (pub = none → (getWorkflowStatus t s p pub).publishingTotal = 0 ∧
      (getWorkflowStatus t s p pub).publishingPublished = 0) ∧
    (∀ tbl, t = some tbl → (getWorkflowStatus t s p pub).topics.total = tbl.length ∧
      ∀ q, (getWorkflowStatus t s p pub).topics.byStatus q =
        (tbl.filter (fun r => r.status == q)).length) ∧
    (∀ tbl, s = some tbl → (getWorkflowStatus t s p pub).scripts.total = tbl.length ∧
      ∀ q, (getWorkflowStatus t s p pub).scripts.byStatus q =
        (tbl.filter (fun r => r.status == q)).length) ∧
    (∀ tbl, p = some tbl → (getWorkflowStatus t s p pub).projects.total = tbl.length ∧
      ∀ q, (getWorkflowStatus t s p pub).projects.byStatus q =
        (tbl.filter (fun r => r.status == q)).length) ∧
    (∀ tbl, pub = some tbl →
      (getWorkflowStatus t s p pub).publishingTotal = tbl.length) ∧
    (getWorkflowStatus t s p pub).publishingPublished =
      (getWorkflowStatus t s p pub).publishingTotal := by
  refine ⟨?_, ?_, ?_, ?_, ?_, ?_, ?_, ?_, ?_⟩
  · intro h; subst h; simp [getWorkflowStatus, tableStatus]
  · intro h; subst h; simp [getWorkflowStatus, tableStatus]
  · intro h; subst h; simp [getWorkflowStatus, tableStatus]
  · intro h; subst h; simp [getWorkflowStatus]
  · intro tbl h; subst h; simp [getWorkflowStatus, tableStatus]
  · intro tbl h; subst h; simp [getWorkflowStatus, tableStatus]
  · intro tbl h; subst h; simp [getWorkflowStatus, tableStatus]
  · intro tbl h; subst h; simp [getWorkflowStatus]
  · cases pub <;> simp [getWorkflowStatus]

/-- Witness for C5: with no database file existing, every count is zero
and the publishing `published` equals `total`, by
`workflow_status_counts`. -/
theorem workflow_status_counts_witness :
    ((getWorkflowStatus none none none none).topics.total = 0 ∧
      ∀ q, (getWorkflowStatus none none none none).topics.byStatus q = 0) ∧
    ((getWorkflowStatus none none none none).publishingTotal = 0 ∧
      (getWorkflowStatus none none none none).publishingPublished = 0) ∧
    (getWorkflowStatus none none none none).publishingPublished =
      (getWorkflowStatus none none none none).publishingTotal :=
  ⟨(workflow_status_counts none none none none).1 rfl,
   (workflow_status_counts none none none none).2.2.2.1 rfl,
   (workflow_status_counts none none none none).2.2.2.2.2.2.2.2⟩

/-- C4: each stage persists through its own save function into its own
store — `save_topic` into the `topics` table of content_topics.db (an
`INSERT OR REPLACE` keyed on the unique title), `save_script` into the
`scripts` table of video_scripts.db, `save_project` into the `projects`
table of video_projects.db and `save_publish_record` into the
`publishing_records` table of publishing_records.db — and each
successful save inserts exactly one new row built from the stage's
output. -/
theorem stage_saves_row_insert :
    (contentStore.dbPath = "data/content_topics.db" ∧
      contentStore.tableName = "topics" ∧
      scriptsStore.dbPath = "data/video_scripts.db" ∧
      scriptsStore.tableName = "scripts" ∧
      projectsStore.dbPath = "data/video_projects.db" ∧
      projectsStore.tableName = "projects" ∧
      publishingStore.dbPath = "data/publishing_records.db" ∧
      publishingStore.tableName = "publishing_records") ∧
    (∀ (tbl : List TopicRow) (nid : Nat) (tc : ContentTopic),
      (saveTopic true tbl nid tc).1.1 =
        tbl.filter (fun r => r.title != tc.title) ++ [topicRow nid tc] ∧
      topicRow nid tc ∈ (saveTopic true tbl nid tc).1.1) ∧
    (∀ (tbl : List ScriptRow) (nid now : Nat) (sc : VideoScript),
      (saveScript true tbl nid now sc).1.1 = tbl ++ [scriptRow nid now sc]) ∧
    (∀ (tbl : List ProjectRow) (nid now : Nat) (pd : VideoProjectData),
      (saveProject true tbl nid now pd).1.1 = tbl ++ [projectRow nid now pd]) ∧
    (∀ (tbl : List PublishRow) (nid : Nat) (pr : PublishRecord),
      (savePublishRecord true tbl nid pr).1.1 = tbl ++ [publishRow nid pr]) := by
  refine ⟨⟨rfl, rfl, rfl, rfl, rfl, rfl, rfl, rfl⟩, ?_, ?_, ?_, ?_⟩
  · intro tbl nid tc
    exact ⟨by simp [saveTopic], by simp [saveTopic]⟩
  · intro tbl nid now sc; simp [saveScript]
  · intro tbl nid now pd; simp [saveProject]
  · intro tbl nid pr; simp [savePublishRecord]

/-! ## Fold invariants of the stage main loops -/

theorem scriptGen_fold_safety (env : ScriptGenEnv) (l₀ : List TopicRow)
    (hnd : (l₀.map TopicRow.id).Nodup) :
    ∀ (sel : List TopicRow), (∀ b ∈ sel, b ∈ l₀ ∧ b.status = "planned") →
    ∀ (st : Pipeline),
    List.Forall₂ (advanceRel TopicRow.status setScripted "planned") l₀ st.topics →
    List.Forall₂ (advanceRel TopicRow.status setScripted "planned") l₀
      (sel.foldl (scriptGenStep env) st).topics := by
  intro sel
  induction sel with
  | nil => intro _ st h; simpa using h
  | cons b rest ih =>
    intro hsel st h
    rw [List.foldl_cons]
    refine ih (fun x hx => hsel x (List.mem_cons_of_mem _ hx)) _ ?_
    rcases scriptGenStep_topics env st b with heq | hupd
    · rw [heq]; exact h
    · rw [hupd]
      refine forall2_advance_update TopicRow.id ?_ ?_ h b.id ?_
      · intro a; rfl
      · intro a; rfl
      intro o ho hid
      have hb := hsel b (List.mem_cons_self _ _)
      have hob : o = b := List.inj_on_of_nodup_map hnd ho hb.1 hid
      rw [hob]; exact hb.2

theorem producer_fold_safety (env : ProduceEnv) (l₀ : List ScriptRow)
    (hnd : (l₀.map ScriptRow.id).Nodup) :
    ∀ (sel : List ScriptRow), (∀ b ∈ sel, b ∈ l₀ ∧ b.status = "draft") →
    ∀ (st : Pipeline),
    List.Forall₂ (advanceRel ScriptRow.status setProduced "draft") l₀ st.scripts →
    List.Forall₂ (advanceRel ScriptRow.status setProduced "draft") l₀
      (sel.foldl (producerStep env) st).scripts := by
  intro sel
  induction sel with
  | nil => intro _ st h; simpa using h
  | cons b rest ih =>
    intro hsel st h
    rw [List.foldl_cons]
    refine ih (fun x hx => hsel x (List.mem_cons_of_mem _ hx)) _ ?_
    rcases producerStep_scripts env st b with heq | hupd
    · rw [heq]; exact h
    · rw [hupd]
      refine forall2_advance_update ScriptRow.id ?_ ?_ h b.id ?_
      · intro a; rfl
      · intro a; rfl
      intro o ho hid
      have hb := hsel b (List.mem_cons_self _ _)
      have hob : o = b := List.inj_on_of_nodup_map hnd ho hb.1 hid
      rw [hob]; exact hb.2

theorem publisher_fold_safety (env : PublishEnv) (l₀ : List ProjectRow)
    (hnd : (l₀.map ProjectRow.id).Nodup) :
    ∀ (sel : List ProjectRow), (∀ b ∈ sel, b ∈ l₀ ∧ b.status = "produced") →
    ∀ (st : Pipeline),
    List.Forall₂ (advanceRel ProjectRow.status setPublished "produced") l₀ st.projects →
    List.Forall₂ (advanceRel ProjectRow.status setPublished "produced") l₀
      (sel.foldl (publisherStep env) st).projects := by
  intro sel
  induction sel with
  | nil => intro _ st h; simpa using h
  | cons b rest ih =>
    intro hsel st h
    rw [List.foldl_cons]
    refine ih (fun x hx => hsel x (List.mem_cons_of_mem _ hx)) _ ?_
    rcases publisherStep_projects env st b with heq | hupd
    · rw [heq]; exact h
    · rw [hupd]
      refine forall2_advance_update ProjectRow.id ?_ ?_ h b.id ?_
      · intro a; rfl
      · intro a; rfl
      intro o ho hid
      have hb := hsel b (List.mem_cons_self _ _)
      have hob : o = b := List.inj_on_of_nodup_map hnd ho hb.1 hid
      rw [hob]; exact hb.2

theorem scriptGen_fold_pres (env : ScriptGenEnv) (sel : List TopicRow) :
    ∀ (st : Pipeline) (tid : Nat),
    (∃ r ∈ st.topics, r.id = tid ∧ r.status = "scripted") →
    ∃ r ∈ (sel.foldl (scriptGenStep env) st).topics, r.id = tid ∧ r.status = "scripted" := by
  induction sel with
  | nil => intro st tid h; simpa using h
  | cons b rest ih =>
    intro st tid h
    rw [List.foldl_cons]
    refine ih _ tid ?_
    rcases scriptGenStep_topics env st b with heq | hupd
    · rw [heq]; exact h
    · rw [hupd]
      refine exists_row_updAll TopicRow.id setScripted ?_ ?_ h b.id
      · intro a _; rfl
      · intro a; rfl

theorem producer_fold_pres (env : ProduceEnv) (sel : List ScriptRow) :
    ∀ (st : Pipeline) (tid : Nat),
    (∃ r ∈ st.scripts, r.id = tid ∧ r.status = "produced") →
    ∃ r ∈ (sel.foldl (producerStep env) st).scripts, r.id = tid ∧ r.status = "produced" := by
  induction sel with
  | nil => intro st tid h; simpa using h
  | cons b rest ih =>
    intro st tid h
    rw [List.foldl_cons]
    refine ih _ tid ?_
    rcases producerStep_scripts env st b with heq | hupd
    · rw [heq]; exact h
    · rw [hupd]
      refine exists_row_updAll ScriptRow.id setProduced ?_ ?_ h b.id
      · intro a _; rfl
      · intro a; rfl

theorem publisher_fold_pres (env : PublishEnv) (sel : List ProjectRow) :
    ∀ (st : Pipeline) (tid : Nat),
    (∃ r ∈ st.projects, r.id = tid ∧ r.status = "published") →
    ∃ r ∈ (sel.foldl (publisherStep env) st).projects, r.id = tid ∧ r.status = "published" := by
  induction sel with
  | nil => intro st tid h; simpa using h
  | cons b rest ih =>
    intro st tid h
    rw [List.foldl_cons]
    refine ih _ tid ?_
    rcases publisherStep_projects env st b with heq | hupd
    · rw [heq]; exact h
    · rw [hupd]
      refine exists_row_updAll ProjectRow.id setPublished ?_ ?_ h b.id
      · intro a _; rfl
      · intro a; rfl

theorem publisher_fold_scripts (env : PublishEnv) (sel : List ProjectRow) :
    ∀ (st : Pipeline), (sel.foldl (publisherStep env) st).scripts = st.scripts := by
  induction sel with
  | nil => intro st; rfl
  | cons b rest ih =>
    intro st
    rw [List.foldl_cons, ih, publisherStep_scripts]

theorem scriptGen_positive (env : ScriptGenEnv) (A : Pipeline)
    (hnd : (A.topics.map TopicRow.id).Nodup) (t : TopicRow)
    (ht : t ∈ scriptGenSelect A.topics) (hs : env.saveOk t.id = true) :
    ∃ r ∈ (scriptGeneratorMain env A).topics, r.id = t.id ∧ r.status = "scripted" := by
  obtain ⟨l₁, l₂, hsel⟩ := List.append_of_mem ht
  unfold scriptGeneratorMain
  rw [hsel, List.foldl_append, List.foldl_cons]
  have hsub : ∀ b ∈ l₁, b ∈ A.topics ∧ b.status = "planned" := by
    intro b hb
    exact mem_scriptGenSelect (by rw [hsel]; exact List.mem_append_left _ hb)
  have hinv := scriptGen_fold_safety env A.topics hnd l₁ hsub A
    (forall2_advance_refl _ _ _ _)
  have htA := mem_scriptGenSelect ht
  obtain ⟨c, hc, hcid⟩ := forall2_exists_id TopicRow.id hinv (fun a => rfl) t htA.1
  have hstep := scriptGenStep_topics_pos env (l₁.foldl (scriptGenStep env) A) t hs
  refine scriptGen_fold_pres env l₂ _ t.id ?_
  rw [hstep]
  refine ⟨if TopicRow.id c == t.id then setScripted c else c,
    List.mem_map_of_mem _ hc, ?_⟩
  rw [if_pos (by simp [hcid])]
  exact ⟨hcid, rfl⟩

theorem producer_positive (env : ProduceEnv) (B : Pipeline)
    (hnd : (B.scripts.map ScriptRow.id).Nodup) (sc : ScriptRow)
    (hsc : sc ∈ producerSelect B.scripts)
    (hio : env.introOk sc.id = true) (hco : env.composeOk sc.id = true)
    (hsv : env.saveOk sc.id = true) :
    ∃ r ∈ (videoProducerMain env B).scripts, r.id = sc.id ∧ r.status = "produced" := by
  obtain ⟨l₁, l₂, hsel⟩ := List.append_of_mem hsc
  unfold videoProducerMain
  rw [hsel, List.foldl_append, List.foldl_cons]
  have hsub : ∀ b ∈ l₁, b ∈ B.scripts ∧ b.status = "draft" := by
    intro b hb
    exact mem_producerSelect (by rw [hsel]; exact List.mem_append_left _ hb)
  have hinv := producer_fold_safety env B.scripts hnd l₁ hsub B
    (forall2_advance_refl _ _ _ _)
  have hscB := mem_producerSelect hsc
  obtain ⟨c, hc, hcid⟩ := forall2_exists_id ScriptRow.id hinv (fun a => rfl) sc hscB.1
  have hfindSome :
      ((l₁.foldl (producerStep env) B).scripts.find? (fun r => r.id == sc.id)).isSome := by
    rw [List.find?_isSome]
    exact ⟨c, hc, by simp [hcid]⟩
  obtain ⟨cf, hcf⟩ := Option.isSome_iff_exists.mp hfindSome
  have hpv := produceVideo_isSome env (l₁.foldl (producerStep env) B).scripts
    (l₁.foldl (producerStep env) B).projects
    (l₁.foldl (producerStep env) B).nextProjectId sc.id cf hcf hio hco hsv
  have hstep := producerStep_scripts_pos env (l₁.foldl (producerStep env) B) sc hpv
  refine producer_fold_pres env l₂ _ sc.id ?_
  rw [hstep]
  refine ⟨if ScriptRow.id c == sc.id then setProduced c else c,
    List.mem_map_of_mem _ hc, ?_⟩
  rw [if_pos (by simp [hcid])]
  exact ⟨hcid, rfl⟩

theorem publisher_positive (env : PublishEnv) (C : Pipeline)
    (hnd : (C.projects.map ProjectRow.id).Nodup) (p : ProjectRow)
    (hp : p ∈ publisherSelect C.projects)
    (hscr : ∃ s ∈ C.scripts, s.id = p.script_id)
    (hup : (env.upload p.id).isSome) :
    ∃ r ∈ (youtubePublisherMain env C).projects, r.id = p.id ∧ r.status = "published" := by
  obtain ⟨l₁, l₂, hsel⟩ := List.append_of_mem hp
  unfold youtubePublisherMain
  rw [hsel, List.foldl_append, List.foldl_cons]
  have hsub : ∀ b ∈ l₁, b ∈ C.projects ∧ b.status = "produced" := by
    intro b hb
    exact mem_publisherSelect (by rw [hsel]; exact List.mem_append_left _ hb)
  have hinv := publisher_fold_safety env C.projects hnd l₁ hsub C
    (forall2_advance_refl _ _ _ _)
  have hpC := mem_publisherSelect hp
  obtain ⟨c, hc, hcid⟩ := forall2_exists_id ProjectRow.id hinv (fun a => rfl) p hpC.1
  have hfindSome :
      ((l₁.foldl (publisherStep env) C).projects.find? (fun r => r.id == p.id)).isSome := by
    rw [List.find?_isSome]
    exact ⟨c, hc, by simp [hcid]⟩
  obtain ⟨cf, hcf⟩ := Option.isSome_iff_exists.mp hfindSome
  -- the found row is the selected project, possibly already advanced
  have hcfmem := List.mem_of_find?_eq_some hcf
  have hcfid : cf.id = p.id := by simpa using List.find?_some hcf
  obtain ⟨o, ho, hrel⟩ := forall2_exists_left hinv cf hcfmem
  have hoid : o.id = p.id := by
    rcases hrel with rfl | ⟨_, rfl⟩
    · exact hcfid
    · exact hcfid
  have hop : o = p := List.inj_on_of_nodup_map hnd ho hpC.1 hoid
  have hcfsid : cf.script_id = p.script_id := by
    rcases hrel with rfl | ⟨_, h2⟩
    · rw [hop]
    · rw [h2, hop]; rfl
  have hscr2 : ∃ s ∈ (l₁.foldl (publisherStep env) C).scripts, s.id = cf.script_id := by
    rw [publisher_fold_scripts, hcfsid]
    exact hscr
  have hpv := publishVideo_isSome env (l₁.foldl (publisherStep env) C) p.id cf hcf hscr2 hup
  have hstep := publisherStep_projects_pos env (l₁.foldl (publisherStep env) C) p hpv
  refine publisher_fold_pres env l₂ _ p.id ?_
  rw [hstep]
  refine ⟨if ProjectRow.id c == p.id then setPublished c else c,
    List.mem_map_of_mem _ hc, ?_⟩
  rw [if_pos (by simp [hcid])]
  exact ⟨hcid, rfl⟩

/-- C6: each stage main consumes only items left in the status the
preceding stage produces and advances them one step.  Script generation
selects only `planned` topics; when the script save succeeds the topic's
status becomes `scripted`, and topic rows change in no other way.  Video
production selects only `draft` scripts; when the project is saved (the
asset generation, composition and save succeed) the script becomes
`produced`, and script rows change in no other way.  Publishing selects
only `produced` projects; when the upload succeeds the project becomes
`published`, and project rows change in no other way.  (Id uniqueness —
the sqlite `INTEGER PRIMARY KEY` — is the `Nodup` hypothesis.) -/
theorem pipeline_status_advancement (e1 : ScriptGenEnv) (e2 : ProduceEnv)
    (e3 : PublishEnv) (A B C : Pipeline) :
    (∀ t ∈ scriptGenSelect A.topics, t.status = "planned") ∧
    ((A.topics.map TopicRow.id).Nodup →
      List.Forall₂ (advanceRel TopicRow.status setScripted "planned") A.topics
        (scriptGeneratorMain e1 A).topics) ∧
    ((A.topics.map TopicRow.id).Nodup →
      ∀ t ∈ scriptGenSelect A.topics, e1.saveOk t.id = true →
        ∃ r ∈ (scriptGeneratorMain e1 A).topics, r.id = t.id ∧ r.status = "scripted") ∧
    (∀ s ∈ producerSelect B.scripts, s.status = "draft") ∧
    ((B.scripts.map ScriptRow.id).Nodup →
      List.Forall₂ (advanceRel ScriptRow.status setProduced "draft") B.scripts
        (videoProducerMain e2 B).scripts) ∧
    ((B.scripts.map ScriptRow.id).Nodup →
      ∀ s ∈ producerSelect B.scripts,
        e2.introOk s.id = true → e2.composeOk s.id = true → e2.saveOk s.id = true →
        ∃ r ∈ (videoProducerMain e2 B).scripts, r.id = s.id ∧ r.status = "produced") ∧
    (∀ p ∈ publisherSelect C.projects, p.status = "produced") ∧
    ((C.projects.map ProjectRow.id).Nodup →
      List.Forall₂ (advanceRel ProjectRow.status setPublished "produced") C.projects
        (youtubePublisherMain e3 C).projects) ∧
    ((C.projects.map ProjectRow.id).Nodup →
      ∀ p ∈ publisherSelect C.projects,
        (∃ s ∈ C.scripts, s.id = p.script_id) → (e3.upload p.id).isSome →
        ∃ r ∈ (youtubePublisherMain e3 C).projects, r.id = p.id ∧ r.status = "published") := by
  refine ⟨?_, ?_, ?_, ?_, ?_, ?_, ?_, ?_, ?_⟩
  · exact fun t ht => (mem_scriptGenSelect ht).2
  · intro hnd
    exact scriptGen_fold_safety e1 A.topics hnd _ (fun b hb => mem_scriptGenSelect hb) A
      (forall2_advance_refl _ _ _ _)
  · intro hnd t ht hs
    exact scriptGen_positive e1 A hnd t ht hs
  · exact fun s hs => (mem_producerSelect hs).2
  · intro hnd
    exact producer_fold_safety e2 B.scripts hnd _ (fun b hb => mem_producerSelect hb) B
      (forall2_advance_refl _ _ _ _)
  · intro hnd s hs hio hco hsv
    exact producer_positive e2 B hnd s hs hio hco hsv
  · exact fun p hp => (mem_publisherSelect hp).2
  · intro hnd
    exact publisher_fold_safety e3 C.projects hnd _ (fun b hb => mem_publisherSelect hb) C
      (forall2_advance_refl _ _ _ _)
  · intro hnd p hp hscr hup
    exact publisher_positive e3 C hnd p hp hscr hup

/-- Witness for C6 on the one-row fixtures: the selected topic / script /
project carries the predecessor status, the three mains only advance rows
one step, and the processed items do end up `scripted` / `produced` /
`published` — by `pipeline_status_advancement`. -/
theorem pipeline_status_advancement_witness :
    topicFix.status = "planned" ∧
    List.Forall₂ (advanceRel TopicRow.status setScripted "planned") pipeFixA.topics
      (scriptGeneratorMain sgEnvFix pipeFixA).topics ∧
    (∃ r ∈ (scriptGeneratorMain sgEnvFix pipeFixA).topics,
      r.id = topicFix.id ∧ r.status = "scripted") ∧
    scriptFix.status = "draft" ∧
    List.Forall₂ (advanceRel ScriptRow.status setProduced "draft") pipeFixB.scripts
      (videoProducerMain prEnvFix pipeFixB).scripts ∧
    (∃ r ∈ (videoProducerMain prEnvFix pipeFixB).scripts,
      r.id = scriptFix.id ∧ r.status = "produced") ∧
    projectFix.status = "produced" ∧
    List.Forall₂ (advanceRel ProjectRow.status setPublished "produced") pipeFixC.projects
      (youtubePublisherMain pubEnvFix pipeFixC).projects ∧
    (∃ r ∈ (youtubePublisherMain pubEnvFix pipeFixC).projects,
      r.id = projectFix.id ∧ r.status = "published") := by
  have h1 := pipeline_status_advancement sgEnvFix prEnvFix pubEnvFix pipeFixA pipeFixB pipeFixC
  have hmemT : topicFix ∈ scriptGenSelect pipeFixA.topics := by decide
  have hndT : (pipeFixA.topics.map TopicRow.id).Nodup := by decide
  have hmemS : scriptFix ∈ producerSelect pipeFixB.scripts := by decide
  have hndS : (pipeFixB.scripts.map ScriptRow.id).Nodup := by decide
  have hmemP : projectFix ∈ publisherSelect pipeFixC.projects := by decide
  have hndP : (pipeFixC.projects.map ProjectRow.id).Nodup := by decide
  have hscr : ∃ s ∈ pipeFixC.scripts, s.id = projectFix.script_id :=
    ⟨scriptFix, by decide, by decide⟩
  exact ⟨h1.1 topicFix hmemT, h1.2.1 hndT, h1.2.2.1 hndT topicFix hmemT rfl,
    h1.2.2.2.1 scriptFix hmemS, h1.2.2.2.2.1 hndS,
    h1.2.2.2.2.2.1 hndS scriptFix hmemS rfl rfl rfl,
    h1.2.2.2.2.2.2.1 projectFix hmemP, h1.2.2.2.2.2.2.2.1 hndP,
    h1.2.2.2.2.2.2.2.2 hndP projectFix hmemP hscr rfl⟩

end DevSecOps
